import Mathlib

/-!
Shallow embedding of the library-api backend (a book-cataloging and
social-review REST service) and proofs about its handlers.

The embedding follows the JavaScript sources:
  - src/api/services/user.js   (signup, login, update, follow, unfollow)
  - src/api/services/review.js (list, update, delete)
  - src/unnamed/part_000       (genre controller: create/delete POST handlers)

Document-store collections are modelled as Lean lists of records, mongo
queries as executable filters over those lists, and each handler as a pure
function from the request data and the store to the response sent first and
the store after the handler ran.  JavaScript falsiness of a missing or empty
string field is modelled by the empty string; nullable values by Option.
-/

namespace LibraryApi

/-- A User document.  Fields are the ones the handlers under src/ touch,
plus the spec's data model (section 3): profile fields, user_type,
suspension state, the denormalized follower_count, and the relation sets.
`followers` is the field named in the count query of user.js line 174; per
the spec, follow/unfollow mutate this relation on the acting user, so it
holds the ids of the users this user follows.  `favorites` holds review
ids. -/
structure UserDoc where
  _id : Nat
  username : String
  email : String
  first_name : String
  family_name : String
  user_type : String
  suspended : Bool
  suspension_timeline : Option Nat
  follower_count : Nat
  followers : List Nat
  favorites : List Nat
  deriving Repr, DecidableEq

/-- User.findById: first document with the given id, if any. -/
def findUserById (db : List UserDoc) (id : Nat) : Option UserDoc :=
  db.find? (fun u => u._id = id)

/-- Modelled from the spec: the User model (not under src/) gives new users
the plain role by default (spec section 3: user_type plain/admin/moderator). -/
def defaultUserType : String := "plain"

/-! ### signup (user.js lines 7-54) -/

/-- The `req.body.user` object of a signup request.  Required fields are
strings ("" models a missing or empty, hence falsy, value); the two
privilege flags are booleans (truthiness). -/
structure SignupBody where
  username : String
  password : String
  email : String
  first_name : String
  family_name : String
  give_admin_priviledges : Bool
  give_mod_priviledges : Bool
  deriving Repr, DecidableEq

inductive SignupResult where
  | badRequest (message : String)
  | ok (user : UserDoc)
  deriving Repr, DecidableEq

/-- signup handler: validates presence of the user object and of each
required field, builds the user, applies the two client-supplied privilege
flags in source order (admin first, moderator second), saves and returns
the user.  No requester identity is consulted at any point.  The password
hash (`setPassword`, a model method outside src/) does not affect any field
the claims mention and is omitted. -/
def signup (body : Option SignupBody) : SignupResult :=
  match body with
  | none => .badRequest "You need to supply the user object with this request"
  | some u =>
    if u.username = "" ∨ u.password = "" ∨ u.email = ""
        ∨ u.first_name = "" ∨ u.family_name = "" then
      .badRequest "Required form values need to be complete!"
    else
      let user0 : UserDoc :=
        { _id := 0, username := u.username, email := u.email,
          first_name := u.first_name, family_name := u.family_name,
          user_type := defaultUserType, suspended := false,
          suspension_timeline := none, follower_count := 0,
          followers := [], favorites := [] }
      let user1 :=
        if u.give_admin_priviledges then { user0 with user_type := "admin" } else user0
      let user2 :=
        if u.give_mod_priviledges then { user1 with user_type := "moderator" } else user1
      .ok user2

/-- user_type of the user a signup response carries, if it succeeded. -/
def signupUserType : SignupResult → Option String
  | .ok u => some u.user_type
  | .badRequest _ => none

/-- Whether a signup response saved and returned a user. -/
def signupOk : SignupResult → Bool
  | .ok _ => true
  | .badRequest _ => false

/-! ### login (user.js lines 56-86): the lazy un-suspension step -/

/-- The JavaScript comparison `suspension_timeline > Date.now()` (a null
timeline compares false). -/
def timelineAfter (t : Option Nat) (now : Nat) : Bool :=
  match t with
  | some v => now < v
  | none => false

/-- Modelled from the spec: user_utils.unsuspend_user is not under src/;
per the spec it lazily un-suspends the user, and the update it applies is
written out in the get handler of user.js (lines 96-99):
suspended := false, suspension_timeline := null. -/
def unsuspend_user (db : List UserDoc) (id : Nat) : List UserDoc :=
  db.map (fun u =>
    if u._id = id then { u with suspended := false, suspension_timeline := none } else u)

/-- login handler, after the external credential strategy has produced the
authenticated user (user.js lines 80-82): the store after the un-suspension
step.  The source un-suspends exactly when
`user.suspended && user.suspension_timeline > Date.now()`. -/
def login (db : List UserDoc) (user : UserDoc) (now : Nat) : List UserDoc :=
  if user.suspended ∧ timelineAfter user.suspension_timeline now then
    unsuspend_user db user._id
  else db

/-- suspended flag of the user with the given id, if present. -/
def suspendedLookup (db : List UserDoc) (id : Nat) : Option Bool :=
  (findUserById db id).map (fun u => u.suspended)

/-! ### update (user.js lines 116-142) -/

/-- The `req.body.user` of a profile-update request, as a partial update
over the modelled profile fields (mongo findByIdAndUpdate applies exactly
the keys the body carries). -/
structure UpdateBody where
  username? : Option String
  email? : Option String
  first_name? : Option String
  family_name? : Option String
  deriving Repr, DecidableEq

/-- Apply the partial update to a document, as findByIdAndUpdate does. -/
def applyUpdate (b : UpdateBody) (u : UserDoc) : UserDoc :=
  { u with
    username := b.username?.getD u.username,
    email := b.email?.getD u.email,
    first_name := b.first_name?.getD u.first_name,
    family_name := b.family_name?.getD u.family_name }

/-- User.findByIdAndUpdate(id, body): update the matching document. -/
def findByIdAndUpdate (db : List UserDoc) (id : Nat) (b : UpdateBody) : List UserDoc :=
  db.map (fun u => if u._id = id then applyUpdate b u else u)

inductive UpdateResponse where
  | badRequestNoBody
  | cannotEditOther
  | unauthorized
  | ok (u : UserDoc)
  | serverError
  deriving Repr, DecidableEq

namespace UserService

/-- update handler (user.js lines 116-142): returns the first response the
handler sends together with the store it leaves behind.  The source's 400
branch for `request_user._id !== req.payload.id` sends the response but
does not return, so execution falls through to
`User.findByIdAndUpdate(req.payload.id, req.body.user)` and the write still
happens; the later res.json throws on the already-sent headers, so the 400
stands as the response.  A missing params-id document makes
`request_user._id` throw, forwarded to the error middleware. -/
def update (db : List UserDoc) (params_id payload_id : Nat)
    (body : Option UpdateBody) : UpdateResponse × List UserDoc :=
  match body with
  | none => (.badRequestNoBody, db)
  | some b =>
    match findUserById db params_id with
    | none => (.serverError, db)
    | some request_user =>
      if request_user._id ≠ payload_id then
        (.cannotEditOther, findByIdAndUpdate db payload_id b)
      else
        let db1 := findByIdAndUpdate db payload_id b
        match findUserById db1 payload_id with
        | none => (.unauthorized, db1)
        | some u => (.ok u, db1)

end UserService

/-! ### follow / unfollow (user.js lines 161-207) -/

/-- User.countDocuments({ followers: { $in: [id] } }): the number of user
documents whose followers field contains the given id. -/
def countDocuments_followersIn (db : List UserDoc) (id : Nat) : Nat :=
  (db.filter (fun x => id ∈ x.followers)).length

/-- Modelled from the spec: the User model method isFollowing (not under
src/) tests membership of the target id in the acting user's relation. -/
def isFollowing (u : UserDoc) (tid : Nat) : Bool :=
  tid ∈ u.followers

/-- Modelled from the spec: user.follow(target) mutates the relation on the
acting user, adding the target's id (the service guards against a duplicate
beforehand). -/
def followMethod (db : List UserDoc) (uid tid : Nat) : List UserDoc :=
  db.map (fun x => if x._id = uid then { x with followers := x.followers ++ [tid] } else x)

/-- Modelled from the spec: user.unfollow(target) removes the target's id
from the acting user's relation. -/
def unfollowMethod (db : List UserDoc) (uid tid : Nat) : List UserDoc :=
  db.map (fun x => if x._id = uid then { x with followers := x.followers.filter (fun y => y ≠ tid) } else x)

/-- Modelled from the spec: target.updateFollowerCount(count) stores the
given number in the target document's denormalized follower_count. -/
def updateFollowerCount (db : List UserDoc) (tid : Nat) (c : Nat) : List UserDoc :=
  db.map (fun x => if x._id = tid then { x with follower_count := c } else x)

inductive FollowResult where
  | unauthorized
  | error
  | ok
  deriving Repr, DecidableEq

namespace UserService

/-- follow handler (user.js lines 161-183): fetch actor and target, refuse
an absent actor (401) or an existing relation (thrown error); otherwise add
the relation on the actor, recount with the query
`{ followers: { $in: [user._id] } }` — the acting user's id — and store
that count on the target. -/
def follow (db : List UserDoc) (payload_id params_id : Nat) :
    FollowResult × List UserDoc :=
  match findUserById db payload_id with
  | none => (.unauthorized, db)
  | some user =>
    match findUserById db params_id with
    | none => (.error, db)
    | some target =>
      if isFollowing user target._id then (.error, db)
      else
        let db1 := followMethod db user._id target._id
        let count := countDocuments_followersIn db1 user._id
        (.ok, updateFollowerCount db1 target._id count)

/-- unfollow handler (user.js lines 185-207): symmetric to follow, refusing
an absent relation, then removing it and recounting with the same
acting-user query. -/
def unfollow (db : List UserDoc) (payload_id params_id : Nat) :
    FollowResult × List UserDoc :=
  match findUserById db payload_id with
  | none => (.unauthorized, db)
  | some user =>
    match findUserById db params_id with
    | none => (.error, db)
    | some target =>
      if ¬ isFollowing user target._id then (.error, db)
      else
        let db1 := unfollowMethod db user._id target._id
        let count := countDocuments_followersIn db1 user._id
        (.ok, updateFollowerCount db1 target._id count)

end UserService

/-- stored follower_count of the user with the given id, if present. -/
def followerCountLookup (db : List UserDoc) (id : Nat) : Option Nat :=
  (findUserById db id).map (fun u => u.follower_count)

/-! ## Review service (src/api/services/review.js) -/

/-- A Review document, with the fields the create handler writes
(review.js lines 136-141) plus the createdAt timestamp the list handler
sorts by. -/
structure ReviewDoc where
  _id : Nat
  content : String
  tags : List String
  review_author : Nat
  book : Nat
  createdAt : Nat
  deriving Repr, DecidableEq

/-- Review.findById over the reviews collection. -/
def findReviewById (db : List ReviewDoc) (id : Nat) : Option ReviewDoc :=
  db.find? (fun r => r._id = id)

/-! ### list (review.js lines 28-88) -/

/-- The query parameters of a list request.  A key is none when absent from
the query string; limit and offset carry the numeric value of the
parameter when present. -/
structure ListQueryParams where
  limit : Option Nat
  offset : Option Nat
  tags : Option String
  author : Option String
  favorited : Option String
  deriving Repr, DecidableEq

/-- The mongo query object the list handler builds: an optional tag
constraint (`tags: { $in: [tag] }`), an optional author id, and an optional
id set (`_id: { $in: ids }`). -/
structure ReviewQuery where
  tags : Option String
  author : Option Nat
  idIn : Option (List Nat)
  deriving Repr, DecidableEq

/-- Whether a review document matches the query: the conjunction of the
constraints present.  The author constraint is keyed `author` in the
source while the schema field written by create is `review_author`; it is
embedded here as a match on the document's author reference (the generous
reading — on documents lacking an `author` key the literal mongo query
would match nothing, which only shrinks the result further). -/
def reviewMatches (q : ReviewQuery) (r : ReviewDoc) : Bool :=
  (match q.tags with
   | some t => t ∈ r.tags
   | none => true) &&
  (match q.author with
   | some a => r.review_author = a
   | none => true) &&
  (match q.idIn with
   | some l => r._id ∈ l
   | none => true)

/-- Review.count(query): documents matching the query. -/
def reviewCount (db : List ReviewDoc) (q : ReviewQuery) : Nat :=
  (db.filter (reviewMatches q)).length

/-- Insertion sort by createdAt descending (`sort({ createdAt: 'desc' })`). -/
def insertByCreatedAtDesc (r : ReviewDoc) : List ReviewDoc → List ReviewDoc
  | [] => [r]
  | x :: xs =>
    if x.createdAt ≤ r.createdAt then r :: x :: xs
    else x :: insertByCreatedAtDesc r xs

def sortByCreatedAtDesc : List ReviewDoc → List ReviewDoc
  | [] => []
  | x :: xs => insertByCreatedAtDesc x (sortByCreatedAtDesc xs)

/-- `.skip(+offset)`: offset defaults to 0 when the parameter is absent. -/
def applyOffset (o : Option Nat) (l : List ReviewDoc) : List ReviewDoc :=
  l.drop (o.getD 0)

/-- `.limit(+limit)`: when the parameter is absent the source coerces its
`{}` default to NaN, which the driver ignores, so no limit applies. -/
def applyLimit (n : Option Nat) (l : List ReviewDoc) : List ReviewDoc :=
  match n with
  | some k => l.take k
  | none => l

namespace ReviewService

/-- list handler (review.js lines 28-88): build the query from the
parameters — a truthy author username is resolved by findOne, a truthy
favorited username likewise, a resolved favoriter contributes its
favorites as the id set, an unresolved but truthy favorited parameter
contributes the empty id set — then return the matching page and the
total count.  JavaScript truthiness makes an empty-string parameter act
as absent in the two ternaries and in the `else if`. -/
def list (users : List UserDoc) (reviews : List ReviewDoc)
    (qp : ListQueryParams) : List ReviewDoc × Nat :=
  let author : Option UserDoc :=
    match qp.author with
    | some name => if name = "" then none else users.find? (fun u => u.username = name)
    | none => none
  let favoriter : Option UserDoc :=
    match qp.favorited with
    | some name => if name = "" then none else users.find? (fun u => u.username = name)
    | none => none
  let favoritedTruthy : Bool :=
    match qp.favorited with
    | some name => name ≠ ""
    | none => false
  let q0 : ReviewQuery := { tags := qp.tags, author := none, idIn := none }
  let q1 :=
    match author with
    | some a => { q0 with author := some a._id }
    | none => q0
  let q2 :=
    match favoriter with
    | some f => { q1 with idIn := some f.favorites }
    | none => if favoritedTruthy then { q1 with idIn := some [] } else q1
  let matched := reviews.filter (reviewMatches q2)
  (applyLimit qp.limit (applyOffset qp.offset (sortByCreatedAtDesc matched)),
   reviewCount reviews q2)

end ReviewService

/-! ### update and delete (review.js lines 152-220) -/

/-- The `req.body.review` of an update request: the handler applies exactly
the keys present (`typeof ... !== 'undefined'` guards). -/
structure ReviewUpdateBody where
  content? : Option String
  tags? : Option (List String)
  deriving Repr, DecidableEq

inductive ReviewResponse where
  | badRequestNoBody
  | badRequestSuspended
  | badRequestNoUser
  | forbidden
  | ok (r : ReviewDoc)
  | noContent
  | serverError
  deriving Repr, DecidableEq

namespace ReviewService

/-- update handler (review.js lines 152-192), acting on the preloaded
review: require the body, refuse any requester whose id differs from the
review's author id (403 — no admin override here), refuse a suspended
requester, then apply the fields present in the body.  Returns the
response and the review as the handler leaves it. -/
def update (users : List UserDoc) (review : ReviewDoc) (payload_id : Nat)
    (body : Option ReviewUpdateBody) (now : Nat) : ReviewResponse × ReviewDoc :=
  match body with
  | none => (.badRequestNoBody, review)
  | some b =>
    if review.review_author ≠ payload_id then (.forbidden, review)
    else
      match findUserById users payload_id with
      | none => (.serverError, review)
      | some user =>
        if user.suspended ∨ timelineAfter user.suspension_timeline now then
          (.badRequestSuspended, review)
        else
          (.ok { review with
                   content := b.content?.getD review.content,
                   tags := b.tags?.getD review.tags },
           { review with
               content := b.content?.getD review.content,
               tags := b.tags?.getD review.tags })

/-- delete handler (review.js lines 194-220), acting on the preloaded
review: refuse an absent requester (400), refuse a requester who is
neither the review's author nor an admin (403), otherwise remove the
review.  Returns the response and the reviews collection it leaves. -/
def remove (users : List UserDoc) (reviews : List ReviewDoc)
    (review : ReviewDoc) (payload_id : Nat) : ReviewResponse × List ReviewDoc :=
  match findUserById users payload_id with
  | none => (.badRequestNoUser, reviews)
  | some user =>
    if review.review_author ≠ payload_id ∧ user.user_type ≠ "admin" then
      (.forbidden, reviews)
    else
      (.noContent, reviews.filter (fun r => r._id ≠ review._id))

end ReviewService

/-! ## Genre controller (src/unnamed/part_000) -/

/-- A Genre document. -/
structure GenreDoc where
  _id : Nat
  name : String
  deriving Repr, DecidableEq

/-- A Book document; `genre` holds its genre reference(s), the field the
dependent-book queries match on. -/
structure BookDoc where
  _id : Nat
  title : String
  summary : String
  genre : List Nat
  deriving Repr, DecidableEq

/-- Modelled from the spec: the Genre model (not under src/) exposes a
url virtual for the genre's detail page, derived from its id. -/
def genre_url (id : Nat) : String :=
  "/catalog/genre/" ++ toString id

inductive GenreResponse where
  | render (view : String)
  | redirect (url : String)
  deriving Repr, DecidableEq

namespace GenreController

/-- genre_create_post (part_000 lines 51-99): an empty name is a
validation error and re-renders the form; otherwise findOne on the exact
name either redirects to the found genre's detail url, saving nothing, or
saves the new genre (with a store-assigned fresh id) and redirects to its
url. -/
def genre_create_post (genres : List GenreDoc) (name : String) (freshId : Nat) :
    GenreResponse × List GenreDoc :=
  if name = "" then
    (.render "genre_form", genres)
  else
    match genres.find? (fun g => g.name = name) with
    | some found_genre => (.redirect (genre_url found_genre._id), genres)
    | none =>
      (.redirect (genre_url freshId), genres ++ [{ _id := freshId, name := name }])

/-- genre_delete_post (part_000 lines 127-163): fetch the genre and the
books whose genre field contains the id; if any exist, re-render the
delete page and keep the store unchanged; otherwise remove the genre and
redirect to the genre list. -/
def genre_delete_post (genres : List GenreDoc) (books : List BookDoc)
    (genreid : Nat) : GenreResponse × List GenreDoc :=
  let genre_books := books.filter (fun b => genreid ∈ b.genre)
  if genre_books.length > 0 then
    (.render "genre_delete", genres)
  else
    (.redirect "/catalog/genres", genres.filter (fun g => g._id ≠ genreid))

end GenreController

/-! ## Concrete documents and requests used as inputs below -/

/-- A plain, unsuspended user with no relations. -/
def mkUser (id : Nat) (uname : String) : UserDoc :=
  { _id := id, username := uname, email := uname ++ "@mail.test",
    first_name := uname, family_name := uname, user_type := "plain",
    suspended := false, suspension_timeline := none, follower_count := 0,
    followers := [], favorites := [] }

def bothFlagsBody : SignupBody :=
  { username := "ada", password := "pw", email := "ada@mail.test",
    first_name := "Ada", family_name := "L",
    give_admin_priviledges := true, give_mod_priviledges := true }

def adminOnlyBody : SignupBody :=
  { username := "bea", password := "pw", email := "bea@mail.test",
    first_name := "Bea", family_name := "M",
    give_admin_priviledges := true, give_mod_priviledges := false }

def exUser1 : UserDoc := mkUser 1 "ann"
def exUser2 : UserDoc := mkUser 2 "bob"
def exDb2 : List UserDoc := [exUser1, exUser2]
def exBody2 : UpdateBody :=
  { username? := none, email? := none, first_name? := some "X", family_name? := none }

def userA4 : UserDoc := { mkUser 1 "ua" with suspended := true, suspension_timeline := some 100 }
def userB4 : UserDoc := { mkUser 2 "ub" with suspended := true, suspension_timeline := some 100 }
def exDb4 : List UserDoc := [userA4, userB4]

def exU3 : UserDoc := mkUser 1 "u"
def exT3 : UserDoc := { mkUser 2 "t" with follower_count := 1 }
def exW3 : UserDoc := { mkUser 3 "w" with followers := [2] }
def exDb3 : List UserDoc := [exU3, exT3, exW3]

def exAdmin6 : UserDoc := { mkUser 1 "adm" with user_type := "admin" }
def exUsers6 : List UserDoc := [exAdmin6]
def exReview6 : ReviewDoc :=
  { _id := 10, content := "old", tags := [], review_author := 2, book := 5, createdAt := 0 }
def exBody6 : ReviewUpdateBody := { content? := some "new", tags? := none }

def exReview7 : ReviewDoc :=
  { _id := 1, content := "r", tags := ["epic"], review_author := 9, book := 1, createdAt := 5 }
def exQp7 : ListQueryParams :=
  { limit := none, offset := none, tags := none, author := none, favorited := some "" }
def exUsers7 : List UserDoc := [mkUser 1 "ann"]
def exQp7b : ListQueryParams :=
  { limit := some 5, offset := some 0, tags := some "epic", author := some "ann",
    favorited := some "ghost" }

def exGenres5 : List GenreDoc := [{ _id := 1, name := "scifi" }, { _id := 2, name := "poetry" }]
def exBook5 : BookDoc := { _id := 7, title := "Dune", summary := "sand", genre := [1] }
def exBooks5 : List BookDoc := [exBook5]

def exGenres10 : List GenreDoc := [{ _id := 1, name := "scifi" }]

end LibraryApi

namespace LibraryApi

/-! ## Theorems -/

/-- C1 counterexample: a signup body with all required fields and both
privilege flags set yields a user whose user_type is "moderator", not
"admin", so the claim's clause "if the body sets give_admin_priviledges
the saved user's user_type is 'admin'" fails as stated. -/
theorem C1_counterexample :
    bothFlagsBody.give_admin_priviledges = true ∧
    signupUserType (signup (some bothFlagsBody)) ≠ some "admin" ∧
    signupUserType (signup (some bothFlagsBody)) = some "moderator" := by
  decide

/-- C1 (amended): for every signup body with all required user fields
present, the user is saved and its user_type is determined by the
client-supplied flags with no authorization check on the requester (the
handler takes no requester identity at all): if the body sets
give_admin_priviledges and not give_mod_priviledges the saved user's
user_type is "admin", and if the body sets give_mod_priviledges the saved
user's user_type is "moderator". -/
theorem C1_signup_flags (b : SignupBody)
    (h1 : b.username ≠ "") (h2 : b.password ≠ "") (h3 : b.email ≠ "")
    (h4 : b.first_name ≠ "") (h5 : b.family_name ≠ "") :
    signupOk (signup (some b)) = true ∧
    (b.give_admin_priviledges = true → b.give_mod_priviledges = false →
      signupUserType (signup (some b)) = some "admin") ∧
    (b.give_mod_priviledges = true →
      signupUserType (signup (some b)) = some "moderator") := by
  cases ha : b.give_admin_priviledges <;> cases hm : b.give_mod_priviledges <;>
    simp [signup, signupOk, signupUserType, h1, h2, h3, h4, h5, ha, hm]

/-- C1 witness: the amended claim evaluated on a concrete admin-only body. -/
theorem C1_witness :
    signupOk (signup (some adminOnlyBody)) = true ∧
    signupUserType (signup (some adminOnlyBody)) = some "admin" := by
  have h := C1_signup_flags adminOnlyBody (by decide) (by decide) (by decide)
    (by decide) (by decide)
  exact ⟨h.1, h.2.1 rfl rfl⟩

/-- C9: for every signup body with all required fields present that sets
both give_admin_priviledges and give_mod_priviledges, the saved user's
user_type is "moderator": the moderator branch is applied second and
overwrites the admin assignment. -/
theorem C9_both_flags_moderator (b : SignupBody)
    (h1 : b.username ≠ "") (h2 : b.password ≠ "") (h3 : b.email ≠ "")
    (h4 : b.first_name ≠ "") (h5 : b.family_name ≠ "")
    (ha : b.give_admin_priviledges = true) (hm : b.give_mod_priviledges = true) :
    signupUserType (signup (some b)) = some "moderator" := by
  simp [signup, signupUserType, h1, h2, h3, h4, h5, ha, hm]

/-- C9 witness: the both-flags body yields a moderator. -/
theorem C9_witness :
    signupUserType (signup (some bothFlagsBody)) = some "moderator" :=
  C9_both_flags_moderator bothFlagsBody (by decide) (by decide) (by decide)
    (by decide) (by decide) rfl rfl

/-- C2: evaluation at a failing input.  A profile-update request whose
params id (2) differs from the authenticated id (1) is answered with the
400 "Cannot edit another user's profile" response, yet the store does
change: the 400 branch of user.js (lines 127-133) sends the response
without a return, so execution falls through to
findByIdAndUpdate(req.payload.id, req.body.user) at line 134 and the body
is applied to the authenticated user's own document — user 1's first_name
becomes "X" while the addressed user 2 is untouched.  The claim's part
"no user document is modified" fails on the code. -/
theorem C2_update_mutates_on_refusal :
    (UserService.update exDb2 2 1 (some exBody2)).1 = .cannotEditOther ∧
    (UserService.update exDb2 2 1 (some exBody2)).2 ≠ exDb2 ∧
    findUserById (UserService.update exDb2 2 1 (some exBody2)).2 1 =
      some { exUser1 with first_name := "X" } ∧
    findUserById (UserService.update exDb2 2 1 (some exBody2)).2 2 = some exUser2 := by
  decide

/-- C4: evaluation at failing inputs.  The login condition is reversed:
a suspended user whose window has NOT elapsed (timeline 100, now 50) is
un-suspended, while a suspended user whose window HAS elapsed
(timeline 100, now 200) stays suspended — the opposite of the claim in
both directions. -/
theorem C4_unsuspend_reversed :
    suspendedLookup (login exDb4 userA4 50) 1 = some false ∧
    suspendedLookup (login exDb4 userB4 200) 2 = some true := by
  decide

/-- C3: evaluation at a failing input.  Start from a consistent store in
which only user 3 follows user 2 (the target, whose stored follower_count
is 1).  User 1's follow of user 2 succeeds, and the handler then stores 0
— the count of documents whose followers field contains the ACTING user's
id 1 — on the target, while the number of users who follow the target,
recomputed from set membership by the same count query keyed on the
target's id, is 2.  The stored denormalized count does not equal the
recomputed one. -/
theorem C3_follower_count_wrong_id :
    (UserService.follow exDb3 1 2).1 = .ok ∧
    followerCountLookup (UserService.follow exDb3 1 2).2 2 = some 0 ∧
    countDocuments_followersIn (UserService.follow exDb3 1 2).2 2 = 2 := by
  decide

/-- C8: evaluation at a failing input.  In the same consistent store the
target (user 2) has stored follower_count 1 before user 1 follows it;
after user 1 follows and then unfollows user 2, both successfully, the
target's stored follower_count is 0, not the prior 1: each recount is
keyed on the acting user's id, so the pair does not restore the prior
value. -/
theorem C8_follow_unfollow_not_restored :
    followerCountLookup exDb3 2 = some 1 ∧
    (UserService.follow exDb3 1 2).1 = .ok ∧
    (UserService.unfollow (UserService.follow exDb3 1 2).2 1 2).1 = .ok ∧
    followerCountLookup (UserService.unfollow (UserService.follow exDb3 1 2).2 1 2).2 2
      = some 0 := by
  decide

/-- C6 counterexample: an admin (user 1) who is not the author of the
review (author id 2) sends a well-formed update request and receives 403:
the review update handler checks authorship only, with no admin override,
so the claim's "an admin who is not the author is permitted to perform
the operation ... for both update and delete" fails for update. -/
theorem C6_counterexample :
    exAdmin6.user_type = "admin" ∧
    exReview6.review_author ≠ exAdmin6._id ∧
    (ReviewService.update exUsers6 exReview6 1 (some exBody6) 0).1 = .forbidden := by
  decide

/-- C6 (amended): for every review request by a requester who is not the
review's author: the update handler responds 403 and leaves the review
unchanged even when the requester is an admin (authorship only, no
admin override on update); the delete handler responds 403 and removes
nothing when the requester is also not an admin, and removes the review
when the requester is an admin (authorship with admin override on delete
only). -/
theorem C6_authorization (users : List UserDoc) (reviews : List ReviewDoc)
    (review : ReviewDoc) (pid : Nat) (b : ReviewUpdateBody) (now : Nat)
    (user : UserDoc)
    (hu : findUserById users pid = some user)
    (hna : review.review_author ≠ pid) :
    ((ReviewService.update users review pid (some b) now).1 = .forbidden ∧
     (ReviewService.update users review pid (some b) now).2 = review) ∧
    (user.user_type ≠ "admin" →
      ReviewService.remove users reviews review pid = (.forbidden, reviews)) ∧
    (user.user_type = "admin" →
      ReviewService.remove users reviews review pid =
        (.noContent, reviews.filter (fun r => r._id ≠ review._id))) := by
  refine ⟨?_, ?_, ?_⟩
  · simp [ReviewService.update, hna]
  · intro hadm
    simp [ReviewService.remove, hu, hna, hadm]
  · intro hadm
    simp [ReviewService.remove, hu, hadm]

/-- C6 witness: the amended claim evaluated with the concrete admin
non-author: update refuses with 403 and keeps the review; delete removes
it. -/
theorem C6_witness :
    (ReviewService.update exUsers6 exReview6 1 (some exBody6) 0).1 = .forbidden ∧
    (ReviewService.update exUsers6 exReview6 1 (some exBody6) 0).2 = exReview6 ∧
    ReviewService.remove exUsers6 [exReview6] exReview6 1 =
      (.noContent, [exReview6].filter (fun r => r._id ≠ exReview6._id)) := by
  have h := C6_authorization exUsers6 [exReview6] exReview6 1 exBody6 0 exAdmin6
    (by decide) (by decide)
  exact ⟨h.1.1, h.1.2, h.2.2 (by decide)⟩

/-- C7 counterexample: with the favorited parameter present but equal to
the empty string — a string matching no user, trivially so in an empty
users collection — both ternaries and the else-if see a falsy value, no
empty id set is installed, and the one existing review is returned with
count 1 instead of the empty result the claim requires. -/
theorem C7_counterexample :
    exQp7.favorited = some "" ∧
    ReviewService.list [] [exReview7] exQp7 = ([exReview7], 1) := by
  decide

/-- Helper: a query whose id set is empty matches no review document. -/
theorem filter_reviewMatches_empty_idIn (tg : Option String) (au : Option Nat)
    (l : List ReviewDoc) :
    l.filter (reviewMatches { tags := tg, author := au, idIn := some [] }) = [] := by
  induction l with
  | nil => rfl
  | cons x xs ih =>
    have hx : reviewMatches { tags := tg, author := au, idIn := some ([] : List Nat) } x
        = false := by
      simp [reviewMatches]
    simp [List.filter_cons, hx, ih]

/-- Helper: pagination of the empty review list is empty. -/
theorem applyLimit_nil (n : Option Nat) : applyLimit n [] = [] := by
  cases n <;> simp [applyLimit]

/-- Helper: offset over the empty review list is empty. -/
theorem applyOffset_nil (o : Option Nat) : applyOffset o [] = [] := by
  simp [applyOffset]

/-- C7 (amended): for every review list request whose favorited query
parameter is a non-empty username matched by no existing user, the
response carries an empty reviews array and a reviewsCount of zero,
whatever the other filter parameters are: the unresolved favoriter
installs the empty id set in the query, which no document matches. -/
theorem C7_nonexistent_favoriter (users : List UserDoc) (reviews : List ReviewDoc)
    (qp : ListQueryParams) (name : String)
    (hf : qp.favorited = some name) (hne : name ≠ "")
    (hno : ∀ u ∈ users, u.username ≠ name) :
    ReviewService.list users reviews qp = ([], 0) := by
  have hfind : users.find? (fun u => u.username = name) = none := by
    rw [List.find?_eq_none]
    intro u hu
    simpa using hno u hu
  simp only [ReviewService.list, hf, hfind, reviewCount, if_neg hne]
  rw [if_pos (by simp [hne] : decide (name ≠ "") = true)]
  rw [filter_reviewMatches_empty_idIn]
  simp [sortByCreatedAtDesc, applyOffset_nil, applyLimit_nil]

/-- C7 witness: the amended claim evaluated on a concrete store with one
user, one review, and every other filter parameter set; the favoriter
"ghost" matches no user and the result is empty. -/
theorem C7_witness :
    ReviewService.list exUsers7 [exReview7] exQp7b = ([], 0) :=
  C7_nonexistent_favoriter exUsers7 [exReview7] exQp7b "ghost" (by decide)
    (by decide) (by decide)

/-- C5: for every store and genre id, if at least one book references the
genre the delete POST re-renders the delete page and leaves the genres
collection unchanged (the genre document remains), and when zero books
reference it the genre is removed from the collection. -/
theorem C5_delete_guard (genres : List GenreDoc) (books : List BookDoc) (gid : Nat) :
    ((∃ b ∈ books, gid ∈ b.genre) →
      GenreController.genre_delete_post genres books gid
        = (.render "genre_delete", genres)) ∧
    ((∀ b ∈ books, gid ∉ b.genre) →
      (GenreController.genre_delete_post genres books gid).2
        = genres.filter (fun g => g._id ≠ gid)) := by
  constructor
  · rintro ⟨b, hb, hg⟩
    have hmem : b ∈ books.filter (fun b2 => gid ∈ b2.genre) :=
      List.mem_filter.mpr ⟨hb, by simpa using hg⟩
    have hpos : 0 < (books.filter (fun b2 => gid ∈ b2.genre)).length :=
      List.length_pos_of_mem hmem
    simp [GenreController.genre_delete_post, hpos]
  · intro h
    have hnil : books.filter (fun b2 => gid ∈ b2.genre) = [] := by
      rw [List.filter_eq_nil_iff]
      intro b hb
      simpa using h b hb
    simp [GenreController.genre_delete_post, hnil]

/-- C5 witness: deleting genre 1, referenced by the book "Dune", is
refused and the store kept; deleting the unreferenced genre 2 removes it. -/
theorem C5_witness :
    GenreController.genre_delete_post exGenres5 exBooks5 1
      = (.render "genre_delete", exGenres5) ∧
    (GenreController.genre_delete_post exGenres5 exBooks5 2).2
      = exGenres5.filter (fun g => g._id ≠ 2) :=
  ⟨(C5_delete_guard exGenres5 exBooks5 1).1 ⟨exBook5, by decide, by decide⟩,
   (C5_delete_guard exGenres5 exBooks5 2).2 (by decide)⟩

/-- C10: for every genre-create POST with a non-empty name, if findOne on
that exact name returns an existing genre the store is unchanged (nothing
is saved) and the response redirects to the existing genre's detail URL;
if no genre has that name the new genre is appended to the store and the
response redirects to its detail URL — a new document is saved only when
no genre with the name exists. -/
theorem C10_create_dedup (genres : List GenreDoc) (name : String) (fid : Nat)
    (h : name ≠ "") :
    (∀ g, genres.find? (fun g2 => g2.name = name) = some g →
      GenreController.genre_create_post genres name fid
        = (.redirect (genre_url g._id), genres)) ∧
    (genres.find? (fun g2 => g2.name = name) = none →
      GenreController.genre_create_post genres name fid
        = (.redirect (genre_url fid), genres ++ [{ _id := fid, name := name }])) := by
  constructor
  · intro g hg
    simp [GenreController.genre_create_post, h, hg]
  · intro hg
    simp [GenreController.genre_create_post, h, hg]

/-- C10 witness: creating "scifi" again redirects to genre 1's URL and
saves nothing; creating "poetry" appends it with the fresh id 5 and
redirects to its URL. -/
theorem C10_witness :
    GenreController.genre_create_post exGenres10 "scifi" 5
      = (.redirect (genre_url 1), exGenres10) ∧
    GenreController.genre_create_post exGenres10 "poetry" 5
      = (.redirect (genre_url 5), exGenres10 ++ [{ _id := 5, name := "poetry" }]) := by
  have h1 := (C10_create_dedup exGenres10 "scifi" 5 (by decide)).1
    { _id := 1, name := "scifi" } (by decide)
  have h2 := (C10_create_dedup exGenres10 "poetry" 5 (by decide)).2 (by decide)
  exact ⟨h1, h2⟩

end LibraryApi
